import Mathlib

/-!
Verification development for the payment views of the donate-wagtail
repository (`donate/payments/views.py`).

The Python views are shallowly embedded as pure Lean functions:

* Gateway calls are modelled as oracles: each flow takes, as explicit
  parameters, the `GatewayResult`-style records that the Braintree calls
  it performs *would* return, and the flow's output records the list of
  gateway requests it actually issued.
* The Django session is a record with the two slots the views touch:
  `completed_transaction_details` and `source_page_id`.
* Python exceptions that can escape a view (`KeyError` from a raw
  `session[...]` access, `IndexError` from `payment_methods[0]`)
  are modelled with `Except PyErr`.
* Monetary amounts are abstract `Nat` values (no arithmetic is ever
  performed on them in the views); identifiers, currencies and locales
  are `String`s.
-/

set_option autoImplicit false

namespace Donate

/-- Python exceptions that can escape the embedded views. -/
inductive PyErr
  | keyError
  | indexError
deriving DecidableEq, Repr

/-- Donation frequency (`constants.FREQUENCIES`). -/
inductive Frequency
  | single
  | monthly
deriving DecidableEq, Repr

/-- Payment method (`constants.METHOD_CARD` / `constants.METHOD_PAYPAL`). -/
inductive PaymentMethod
  | card
  | paypal
deriving DecidableEq, Repr

/-- The Braintree error codes that `views.py` inspects, plus a catch-all
for every other code a gateway result may carry. -/
inductive ErrorCode
  | CreditCardTypeIsNotAccepted
  | CvvIsInvalid
  | CvvVerificationFailed
  | ExpirationDateIsInvalid
  | NumberIsInvalid
  | PostalCodeInvalidCharacters
  | PostalCodeIsTooLong
  | other (code : Nat)
deriving DecidableEq, Repr

/-! User-facing message strings, verbatim from `views.py`. -/

def card_type_msg : String := "The type of card you used is not accepted."

def cvv_invalid_msg : String := "The CVV code you entered was invalid."

def expiration_msg : String := "The expiration date you entered was invalid."

def number_invalid_msg : String := "The credit card number you entered was invalid."

def post_code_msg : String := "The post code you provided is not valid."

/-- `default_error_message` of `CardPaymentView.process_braintree_error_result`. -/
def default_error_message : String :=
  "Sorry there was an error processing your payment. Please try again later or use a different payment method."

/-- `default_error_message` of the two upsell views' `process_braintree_error_result`. -/
def upsell_default_error_message : String :=
  "Sorry there was an error processing your payment. Please try again later."

/-- The `client_errors` dictionary of `CardPaymentView.filter_user_card_errors`,
as a partial map from error code to message. -/
def client_errors_map : ErrorCode → Option String
  | .CreditCardTypeIsNotAccepted => some card_type_msg
  | .CvvIsInvalid => some cvv_invalid_msg
  | .CvvVerificationFailed => some cvv_invalid_msg
  | .ExpirationDateIsInvalid => some expiration_msg
  | .NumberIsInvalid => some number_invalid_msg
  | _ => none

/-- The `errors` dictionary of `CardPaymentView.check_for_address_errors`. -/
def address_errors_map : ErrorCode → Option String
  | .PostalCodeInvalidCharacters => some post_code_msg
  | .PostalCodeIsTooLong => some post_code_msg
  | _ => none

/-- Whether a code is one of the two address-related codes. -/
def isAddressCode (e : ErrorCode) : Bool :=
  (address_errors_map e).isSome

/-- `CardPaymentView.filter_user_card_errors`: collect, in the order of the
result's `deep_errors`, the user message of every code found in
`client_errors`. -/
def CardPaymentView.filter_user_card_errors (errs : List ErrorCode) : List String :=
  errs.filterMap client_errors_map

/-- `CardPaymentView.check_for_address_errors`: iterate over `deep_errors`
and raise `InvalidAddress(errors=[errors[error.code]])` at the first
address-related code.  `some msgs` models the raised exception's payload,
`none` models falling through without raising. -/
def CardPaymentView.check_for_address_errors : List ErrorCode → Option (List String)
  | [] => none
  | e :: rest =>
    match address_errors_map e with
    | some m => some [m]
    | none => CardPaymentView.check_for_address_errors rest

/-- Outcome of card-flow error classification: either the view catches
`InvalidAddress` and renders with `gateway_address_errors` set, or it adds
one or more messages to the form as non-field errors. -/
inductive CardErrorOutcome
  | addressError (msgs : List String)
  | formErrors (msgs : List String)
deriving DecidableEq, Repr

/-- `CardPaymentView.process_braintree_error_result`, as a function of the
result's `deep_errors` list.  Mirrors the source: if there are structured
errors, address errors win, then mapped card errors, then the generic
message; with no structured errors at all, the generic message. -/
def CardPaymentView.process_braintree_error_result (errs : List ErrorCode) : CardErrorOutcome :=
  if errs.isEmpty then
    -- Processor decline or some other exception
    CardErrorOutcome.formErrors [default_error_message]
  else
    match CardPaymentView.check_for_address_errors errs with
    | some msgs => CardErrorOutcome.addressError msgs
    | none =>
      let errors_to_report := CardPaymentView.filter_user_card_errors errs
      if errors_to_report.isEmpty then
        CardErrorOutcome.formErrors [default_error_message]
      else
        CardErrorOutcome.formErrors errors_to_report

example :
    CardPaymentView.process_braintree_error_result [ErrorCode.NumberIsInvalid] =
      CardErrorOutcome.formErrors [number_invalid_msg] := by decide

example :
    CardPaymentView.process_braintree_error_result
      [ErrorCode.NumberIsInvalid, ErrorCode.PostalCodeIsTooLong] =
      CardErrorOutcome.addressError [post_code_msg] := by decide

example :
    CardPaymentView.process_braintree_error_result [ErrorCode.other 7] =
      CardErrorOutcome.formErrors [default_error_message] := by decide

/-! ## Dates

`views.py` computes the upsell subscription's start date as
`now().date() + relativedelta(months=1)`.  `Date` and `addOneMonth` embed
the documented semantics of `dateutil.relativedelta` month addition: the
month is advanced by one (rolling the year), and an out-of-range day is
clamped to the last valid day of the target month. -/

structure Date where
  year : Nat
  month : Nat
  day : Nat
deriving DecidableEq, Repr

def isLeapYear (y : Nat) : Bool :=
  (y % 4 == 0 && y % 100 != 0) || y % 400 == 0

def daysInMonth (y m : Nat) : Nat :=
  if m = 2 then (if isLeapYear y then 29 else 28)
  else if m = 4 ∨ m = 6 ∨ m = 9 ∨ m = 11 then 30
  else 31

def Date.valid (d : Date) : Prop :=
  1 ≤ d.month ∧ d.month ≤ 12 ∧ 1 ≤ d.day ∧ d.day ≤ daysInMonth d.year d.month

instance (d : Date) : Decidable d.valid := by
  unfold Date.valid; infer_instance

/-- `date + relativedelta(months=1)` (dateutil semantics). -/
def addOneMonth (d : Date) : Date :=
  let y := if d.month = 12 then d.year + 1 else d.year
  let m := if d.month = 12 then 1 else d.month + 1
  { year := y, month := m, day := min d.day (daysInMonth y m) }

/-! ## Data model: forms, transaction details, session -/

/-- The settlement-amount value stored in session details.  `pyNone` models
the Python `None` (or an absent key); `scalar` a plain amount; `tuple1` a
one-element tuple `(amount,)` — the value the PayPal single flow builds
because of the trailing comma at `views.py` line 336. -/
inductive SettlementVal
  | pyNone
  | scalar (amount : Nat)
  | tuple1 (amount : Nat)
deriving DecidableEq, Repr

/-- The cleaned data of `BraintreeCardPaymentForm` that `views.py` reads. -/
structure CardFormData where
  first_name : String
  last_name : String
  email : String
  braintree_nonce : String
  amount : Nat
  address_line_1 : String
  town : String
  post_code : String
  country : String
deriving DecidableEq, Repr

/-- The cleaned data of `BraintreePaypalPaymentForm` that `views.py` reads. -/
structure PaypalFormData where
  frequency : Frequency
  currency : String
  amount : Nat
  braintree_nonce : String
  source_page_id : Nat
deriving DecidableEq, Repr

/-- The `form.cleaned_data.copy()` part of a session details dictionary.
Each payment view copies its own form's fields into the details; the PayPal
payment view builds its details dictionary from scratch instead. -/
inductive FormSnapshot
  | cardPayment (f : CardFormData)
  | upsellAmount (amount : Nat)
  | paypalUpsell (currency : String) (amount : Nat) (braintree_nonce : String)
  | paypalNone
deriving DecidableEq, Repr

/-- The `completed_transaction_details` record written to the session.
`source_page_id` and `locale` are filled in by `BraintreePaymentMixin.success`;
the per-view `get_transaction_details_for_session` builders leave them at
their defaults. -/
structure TransactionDetails where
  form_fields : FormSnapshot
  amount : Nat
  transaction_id : String
  settlement_amount : SettlementVal
  last_4 : Option String
  payment_method : PaymentMethod
  currency : String
  payment_frequency : Frequency
  payment_method_token : Option String
  source_page_id : Option Nat := none
  locale : String := ""
deriving DecidableEq, Repr

/-- The two session slots the payment views read and write. -/
structure Session where
  completed_transaction_details : Option TransactionDetails
  source_page_id : Option Nat
deriving DecidableEq, Repr

/-! ## Gateway boundary -/

/-- One vaulted payment method of a Braintree customer result. -/
structure PaymentMethodRecord where
  token : String
  last_4 : String
deriving DecidableEq, Repr

/-- Result of `gateway.customer.create`. -/
structure CustomerResult where
  is_success : Bool
  payment_methods : List PaymentMethodRecord
  deep_errors : List ErrorCode
deriving DecidableEq, Repr

/-- Result of `gateway.transaction.sale`. -/
structure TransactionResult where
  is_success : Bool
  transaction_id : String
  settlement_amount : Nat
  last_4 : String
  deep_errors : List ErrorCode
deriving DecidableEq, Repr

/-- Result of `gateway.subscription.create`. -/
structure SubscriptionResult where
  is_success : Bool
  subscription_id : String
  deep_errors : List ErrorCode
deriving DecidableEq, Repr

/-- The payment instrument a `transaction.sale` request names. -/
inductive PaySource
  | methodToken (token : String)
  | methodNonce (nonce : String)
deriving DecidableEq, Repr

/-- Payload of a `gateway.customer.create` request, in the fields the views
set (the card flow also attaches a billing address, which carries no logic). -/
structure CustomerRequest where
  first_name : Option String
  last_name : Option String
  email : Option String
  payment_method_nonce : String
deriving DecidableEq, Repr

/-- Payload of a `gateway.subscription.create` request. -/
structure SubscriptionRequest where
  plan_id : String
  merchant_account_id : String
  payment_method_token : Option String
  price : Nat
  first_billing_date : Option Date
deriving DecidableEq, Repr

/-- One gateway call issued by a flow. -/
inductive GatewayCall
  | customerCreate (req : CustomerRequest)
  | transactionSale (amount : Nat) (merchant_account_id : String) (source : PaySource)
  | subscriptionCreate (req : SubscriptionRequest)
deriving DecidableEq, Repr

/-- The Django settings the views consult: `BRAINTREE_MERCHANT_ACCOUNTS`
and `BRAINTREE_PLANS`, both keyed by currency. -/
structure Settings where
  merchant_accounts : String → String
  plans : String → String

def BraintreePaymentMixin.get_merchant_account_id (st : Settings) (currency : String) : String :=
  st.merchant_accounts currency

def BraintreePaymentMixin.get_plan_id (st : Settings) (currency : String) : String :=
  st.plans currency

/-! ## Responses and the success step -/

/-- The HTTP-level outcome of a flow, at the granularity the claims need. -/
inductive Response
  | redirect (url : String)
  | formInvalid (outcome : CardErrorOutcome)
  | rendered
deriving DecidableEq, Repr

def home_url : String := "/"

def newsletter_signup_url : String := "payments:newsletter_signup"

def card_upsell_url : String := "payments:card_upsell"

def paypal_upsell_url : String := "payments:paypal_upsell"

def completed_url : String := "payments:completed"

/-- Modelled from the spec: `freeze_transaction_details_for_session`
(defined in `donate/payments/utils.py`, which is not part of the provided
sources) deep-copies the details so later form mutation cannot corrupt the
session snapshot (spec §4.4).  A deep copy of an immutable value is the
identity in a pure model. -/
def freeze_transaction_details_for_session (d : TransactionDetails) : TransactionDetails := d

/-- `BraintreePaymentMixin.success`: complete the details with
`source_page_id` and `locale`, freeze them, write both session slots and
redirect to the view's success URL. -/
def BraintreePaymentMixin.success (base : TransactionDetails) (source_page_id : Option Nat)
    (locale : String) (success_url : String) : Session × Response :=
  let details := freeze_transaction_details_for_session
    { base with source_page_id := source_page_id, locale := locale }
  ({ completed_transaction_details := some details, source_page_id := source_page_id },
   Response.redirect success_url)

/-! ## Card payment flows (`CardPaymentView`) -/

/-- `CardPaymentView.get_address_info`, in the fields the views pass on. -/
def CardPaymentView.get_address_info (f : CardFormData) : List (String × String) :=
  [("street_address", f.address_line_1), ("locality", f.town),
   ("postal_code", f.post_code), ("country_code_alpha2", f.country)]

/-- The `gateway.customer.create` payload built by
`CardPaymentView.create_customer`. -/
def CardPaymentView.customer_request (f : CardFormData) : CustomerRequest :=
  { first_name := some f.first_name,
    last_name := some f.last_name,
    email := some f.email,
    payment_method_nonce := f.braintree_nonce }

/-- `CardPaymentView.get_transaction_details_for_session`:
`form.cleaned_data.copy()` updated with the transaction keys.  The single
flow passes `settlement_amount` and `payment_method_token` as kwargs; the
monthly flow does not, so `kwargs.get` yields `None` for both there. -/
def CardPaymentView.get_transaction_details_for_session (f : CardFormData) (currency : String)
    (payment_frequency : Frequency) (transaction_id : String)
    (settlement_amount : SettlementVal) (last_4 : Option String)
    (payment_method_token : Option String) : TransactionDetails :=
  { form_fields := FormSnapshot.cardPayment f,
    amount := f.amount,
    transaction_id := transaction_id,
    settlement_amount := settlement_amount,
    last_4 := last_4,
    payment_method := PaymentMethod.card,
    currency := currency,
    payment_frequency := payment_frequency,
    payment_method_token := payment_method_token }

/-- `CardPaymentView.get_success_url`. -/
def CardPaymentView.get_success_url (payment_frequency : Frequency) : String :=
  if payment_frequency = Frequency.single then card_upsell_url
  else newsletter_signup_url

/-- `CardPaymentView.process_single_transaction`.  `custRes` and `saleRes`
are the results the two gateway calls would return; the output carries the
new session, the response, and the gateway calls actually issued. -/
def CardPaymentView.process_single_transaction (st : Settings) (f : CardFormData)
    (currency : String) (source_page_id : Nat) (locale : String)
    (custRes : CustomerResult) (saleRes : TransactionResult) (s : Session) :
    Except PyErr (Session × Response × List GatewayCall) :=
  let calls0 := [GatewayCall.customerCreate (CardPaymentView.customer_request f)]
  if custRes.is_success then
    match custRes.payment_methods with
    | [] => Except.error PyErr.indexError
    | payment_method :: _ =>
      let calls := calls0 ++
        [GatewayCall.transactionSale f.amount
          (BraintreePaymentMixin.get_merchant_account_id st currency)
          (PaySource.methodToken payment_method.token)]
      if saleRes.is_success then
        let base := CardPaymentView.get_transaction_details_for_session f currency
          Frequency.single saleRes.transaction_id
          (SettlementVal.scalar saleRes.settlement_amount)
          (some saleRes.last_4) (some payment_method.token)
        let sr := BraintreePaymentMixin.success base (some source_page_id) locale
          (CardPaymentView.get_success_url Frequency.single)
        Except.ok (sr.1, sr.2, calls)
      else
        Except.ok (s,
          Response.formInvalid (CardPaymentView.process_braintree_error_result saleRes.deep_errors),
          calls)
  else
    Except.ok (s,
      Response.formInvalid (CardPaymentView.process_braintree_error_result custRes.deep_errors),
      calls0)

/-- `CardPaymentView.process_monthly_transaction`. -/
def CardPaymentView.process_monthly_transaction (st : Settings) (f : CardFormData)
    (currency : String) (source_page_id : Nat) (locale : String)
    (custRes : CustomerResult) (subRes : SubscriptionResult) (s : Session) :
    Except PyErr (Session × Response × List GatewayCall) :=
  let calls0 := [GatewayCall.customerCreate (CardPaymentView.customer_request f)]
  if custRes.is_success then
    match custRes.payment_methods with
    | [] => Except.error PyErr.indexError
    | payment_method :: _ =>
      let calls := calls0 ++
        [GatewayCall.subscriptionCreate
          { plan_id := BraintreePaymentMixin.get_plan_id st currency,
            merchant_account_id := BraintreePaymentMixin.get_merchant_account_id st currency,
            payment_method_token := some payment_method.token,
            price := f.amount,
            first_billing_date := none }]
      if subRes.is_success then
        let base := CardPaymentView.get_transaction_details_for_session f currency
          Frequency.monthly subRes.subscription_id SettlementVal.pyNone
          (some payment_method.last_4) none
        let sr := BraintreePaymentMixin.success base (some source_page_id) locale
          (CardPaymentView.get_success_url Frequency.monthly)
        Except.ok (sr.1, sr.2, calls)
      else
        Except.ok (s,
          Response.formInvalid (CardPaymentView.process_braintree_error_result subRes.deep_errors),
          calls)
  else
    Except.ok (s,
      Response.formInvalid (CardPaymentView.process_braintree_error_result custRes.deep_errors),
      calls0)

/-! ## PayPal payment flow (`PaypalPaymentView`) -/

/-- `PaypalPaymentView.get_transaction_details_for_session`.  Note the
trailing comma in the source (`views.py` line 336): the single flow's
`settlement_amount` is the one-element tuple
`(result.transaction.disbursement_details.settlement_amount,)`. -/
def PaypalPaymentView.get_transaction_details_for_session (payment_frequency : Frequency)
    (amount : Nat) (currency : String) (saleRes : TransactionResult)
    (subRes : SubscriptionResult) : TransactionDetails :=
  if payment_frequency = Frequency.single then
    { form_fields := FormSnapshot.paypalNone,
      amount := amount,
      transaction_id := saleRes.transaction_id,
      settlement_amount := SettlementVal.tuple1 saleRes.settlement_amount,
      last_4 := none,
      payment_method := PaymentMethod.paypal,
      currency := currency,
      payment_frequency := payment_frequency,
      payment_method_token := none }
  else
    { form_fields := FormSnapshot.paypalNone,
      amount := amount,
      transaction_id := subRes.subscription_id,
      settlement_amount := SettlementVal.pyNone,
      last_4 := none,
      payment_method := PaymentMethod.paypal,
      currency := currency,
      payment_frequency := payment_frequency,
      payment_method_token := none }

/-- `PaypalPaymentView.get_success_url`. -/
def PaypalPaymentView.get_success_url (payment_frequency : Frequency) : String :=
  if payment_frequency = Frequency.single then paypal_upsell_url
  else newsletter_signup_url

/-- `PaypalPaymentView.form_valid`.  The single flow charges the one-time
nonce directly; the monthly flow vaults a customer and subscribes.  Its
`process_braintree_error_result` override re-renders the view
(`self.get(self.request)`), modelled as `Response.rendered`. -/
def PaypalPaymentView.form_valid (st : Settings) (pf : PaypalFormData) (locale : String)
    (saleRes : TransactionResult) (custRes : CustomerResult)
    (subRes : SubscriptionResult) (s : Session) :
    Except PyErr (Session × Response × List GatewayCall) :=
  if pf.frequency = Frequency.single then
    let calls := [GatewayCall.transactionSale pf.amount
      (BraintreePaymentMixin.get_merchant_account_id st pf.currency)
      (PaySource.methodNonce pf.braintree_nonce)]
    if saleRes.is_success then
      let base := PaypalPaymentView.get_transaction_details_for_session Frequency.single
        pf.amount pf.currency saleRes subRes
      let sr := BraintreePaymentMixin.success base (some pf.source_page_id) locale
        (PaypalPaymentView.get_success_url Frequency.single)
      Except.ok (sr.1, sr.2, calls)
    else
      Except.ok (s, Response.rendered, calls)
  else
    let calls0 := [GatewayCall.customerCreate
      { first_name := none, last_name := none, email := none,
        payment_method_nonce := pf.braintree_nonce }]
    if custRes.is_success then
      match custRes.payment_methods with
      | [] => Except.error PyErr.indexError
      | payment_method :: _ =>
        let calls := calls0 ++
          [GatewayCall.subscriptionCreate
            { plan_id := BraintreePaymentMixin.get_plan_id st pf.currency,
              merchant_account_id := BraintreePaymentMixin.get_merchant_account_id st pf.currency,
              payment_method_token := some payment_method.token,
              price := pf.amount,
              first_billing_date := none }]
        if subRes.is_success then
          let base := PaypalPaymentView.get_transaction_details_for_session Frequency.monthly
            pf.amount pf.currency saleRes subRes
          let sr := BraintreePaymentMixin.success base (some pf.source_page_id) locale
            (PaypalPaymentView.get_success_url Frequency.monthly)
          Except.ok (sr.1, sr.2, calls)
        else
          Except.ok (s, Response.rendered, calls)
    else
      Except.ok (s, Response.rendered, calls0)

/-! ## Transaction guard and upsell views -/

/-- `TransactionRequiredMixin.dispatch`: `some r` models returning the
redirect response `r` without calling `super().dispatch`; `none` models
falling through to the wrapped view.  `session.get(...)` is a non-raising
read, and an absent record is falsy. -/
def TransactionRequiredMixin.dispatch (s : Session) : Option Response :=
  if s.completed_transaction_details.isNone then some (Response.redirect home_url)
  else none

/-- Outcome of an upsell view's own `dispatch` body. -/
inductive DispatchOutcome
  | redirectSuccessUrl
  | redirectHome
  | proceed (suggested : Nat)
deriving DecidableEq, Repr

/-- `CardUpsellView.dispatch`.  The view's own `dispatch` runs first in the
method resolution order, and its first statement is the raw subscript
`self.request.session['completed_transaction_details']`, which raises
`KeyError` when the slot is absent; only at the end does `super().dispatch`
reach the `TransactionRequiredMixin` guard.  `suggest` stands for
`get_suggested_monthly_upgrade` (defined in `utils.py`, outside the
provided sources). -/
def CardUpsellView.dispatch (suggest : String → Nat → Option Nat) (s : Session) :
    Except PyErr DispatchOutcome :=
  match s.completed_transaction_details with
  | none => Except.error PyErr.keyError
  | some last_transaction =>
    if ¬(last_transaction.payment_frequency = Frequency.single ∧
         last_transaction.payment_method = PaymentMethod.card) then
      Except.ok DispatchOutcome.redirectSuccessUrl
    else
      match suggest last_transaction.currency last_transaction.amount with
      | none => Except.ok DispatchOutcome.redirectSuccessUrl
      | some suggested =>
        match TransactionRequiredMixin.dispatch s with
        | some _ => Except.ok DispatchOutcome.redirectHome
        | none => Except.ok (DispatchOutcome.proceed suggested)

/-- `PaypalUpsellView.dispatch`: identical to the card variant but requires
the prior method to be PayPal. -/
def PaypalUpsellView.dispatch (suggest : String → Nat → Option Nat) (s : Session) :
    Except PyErr DispatchOutcome :=
  match s.completed_transaction_details with
  | none => Except.error PyErr.keyError
  | some last_transaction =>
    if ¬(last_transaction.payment_frequency = Frequency.single ∧
         last_transaction.payment_method = PaymentMethod.paypal) then
      Except.ok DispatchOutcome.redirectSuccessUrl
    else
      match suggest last_transaction.currency last_transaction.amount with
      | none => Except.ok DispatchOutcome.redirectSuccessUrl
      | some suggested =>
        match TransactionRequiredMixin.dispatch s with
        | some _ => Except.ok DispatchOutcome.redirectHome
        | none => Except.ok (DispatchOutcome.proceed suggested)

/-- `CardUpsellView.get_transaction_details_for_session`:
`form.cleaned_data.copy()` (the `UpsellForm` has only `amount`) updated
with the subscription keys.  No settlement amount, `last_4` or token key is
written. -/
def CardUpsellView.get_transaction_details_for_session (amount : Nat)
    (subscription_id : String) (currency : String) : TransactionDetails :=
  { form_fields := FormSnapshot.upsellAmount amount,
    amount := amount,
    transaction_id := subscription_id,
    settlement_amount := SettlementVal.pyNone,
    last_4 := none,
    payment_method := PaymentMethod.card,
    currency := currency,
    payment_frequency := Frequency.monthly,
    payment_method_token := none }

/-- `CardUpsellView.form_valid`: read the token and currency from the
session record, create one subscription starting one month from today
against that token, and on success replace the session record.  On failure
a single generic message is added to the form. -/
def CardUpsellView.form_valid (st : Settings) (formAmount : Nat) (locale : String)
    (today : Date) (subRes : SubscriptionResult) (s : Session) :
    Except PyErr (Session × Response × List GatewayCall) :=
  match s.completed_transaction_details with
  | none => Except.error PyErr.keyError
  | some last_transaction =>
    let payment_method_token := last_transaction.payment_method_token
    let currency := last_transaction.currency
    let start_date := addOneMonth today
    let calls := [GatewayCall.subscriptionCreate
      { plan_id := BraintreePaymentMixin.get_plan_id st currency,
        merchant_account_id := BraintreePaymentMixin.get_merchant_account_id st currency,
        payment_method_token := payment_method_token,
        price := formAmount,
        first_billing_date := some start_date }]
    if subRes.is_success then
      let base := CardUpsellView.get_transaction_details_for_session formAmount
        subRes.subscription_id currency
      let sr := BraintreePaymentMixin.success base s.source_page_id locale
        newsletter_signup_url
      Except.ok (sr.1, sr.2, calls)
    else
      Except.ok (s,
        Response.formInvalid (CardErrorOutcome.formErrors [upsell_default_error_message]),
        calls)

/-- A full POST request to the card upsell view: Django runs `dispatch`
first; only a `proceed` outcome reaches `form_valid`.  The redirect
branches issue no gateway call. -/
def CardUpsellView.request (suggest : String → Nat → Option Nat) (st : Settings)
    (formAmount : Nat) (locale : String) (today : Date)
    (subRes : SubscriptionResult) (s : Session) :
    Except PyErr (Session × Response × List GatewayCall) :=
  match CardUpsellView.dispatch suggest s with
  | Except.error e => Except.error e
  | Except.ok DispatchOutcome.redirectSuccessUrl =>
    Except.ok (s, Response.redirect newsletter_signup_url, [])
  | Except.ok DispatchOutcome.redirectHome =>
    Except.ok (s, Response.redirect home_url, [])
  | Except.ok (DispatchOutcome.proceed _) =>
    CardUpsellView.form_valid st formAmount locale today subRes s

/-- `PaypalUpsellView.get_transaction_details_for_session`:
`form.cleaned_data.copy()` (`BraintreePaypalUpsellForm`: currency, amount,
nonce) updated with the subscription keys. -/
def PaypalUpsellView.get_transaction_details_for_session (formCurrency : String)
    (formAmount : Nat) (formNonce : String) (subscription_id : String)
    (currency : String) : TransactionDetails :=
  { form_fields := FormSnapshot.paypalUpsell formCurrency formAmount formNonce,
    amount := formAmount,
    transaction_id := subscription_id,
    settlement_amount := SettlementVal.pyNone,
    last_4 := none,
    payment_method := PaymentMethod.paypal,
    currency := currency,
    payment_frequency := Frequency.monthly,
    payment_method_token := none }

/-- `PaypalUpsellView.form_valid`: unlike the card upsell, this creates a
*new* customer from the nonce submitted with the upsell form and subscribes
against the newly vaulted payment method's token; the session record's
token is never read. -/
def PaypalUpsellView.form_valid (st : Settings) (formCurrency : String) (formAmount : Nat)
    (formNonce : String) (locale : String) (today : Date)
    (custRes : CustomerResult) (subRes : SubscriptionResult) (s : Session) :
    Except PyErr (Session × Response × List GatewayCall) :=
  let calls0 := [GatewayCall.customerCreate
    { first_name := none, last_name := none, email := none,
      payment_method_nonce := formNonce }]
  if custRes.is_success then
    match custRes.payment_methods with
    | [] => Except.error PyErr.indexError
    | payment_method :: _ =>
      let start_date := addOneMonth today
      let calls := calls0 ++
        [GatewayCall.subscriptionCreate
          { plan_id := BraintreePaymentMixin.get_plan_id st formCurrency,
            merchant_account_id := BraintreePaymentMixin.get_merchant_account_id st formCurrency,
            payment_method_token := some payment_method.token,
            price := formAmount,
            first_billing_date := some start_date }]
      if subRes.is_success then
        let base := PaypalUpsellView.get_transaction_details_for_session formCurrency
          formAmount formNonce subRes.subscription_id formCurrency
        let sr := BraintreePaymentMixin.success base s.source_page_id locale
          newsletter_signup_url
        Except.ok (sr.1, sr.2, calls)
      else
        Except.ok (s,
          Response.formInvalid (CardErrorOutcome.formErrors [upsell_default_error_message]),
          calls)
  else
    Except.ok (s,
      Response.formInvalid (CardErrorOutcome.formErrors [upsell_default_error_message]),
      calls0)

/-- A full POST request to the PayPal upsell view. -/
def PaypalUpsellView.request (suggest : String → Nat → Option Nat) (st : Settings)
    (formCurrency : String) (formAmount : Nat) (formNonce : String) (locale : String)
    (today : Date) (custRes : CustomerResult) (subRes : SubscriptionResult) (s : Session) :
    Except PyErr (Session × Response × List GatewayCall) :=
  match PaypalUpsellView.dispatch suggest s with
  | Except.error e => Except.error e
  | Except.ok DispatchOutcome.redirectSuccessUrl =>
    Except.ok (s, Response.redirect newsletter_signup_url, [])
  | Except.ok DispatchOutcome.redirectHome =>
    Except.ok (s, Response.redirect home_url, [])
  | Except.ok (DispatchOutcome.proceed _) =>
    PaypalUpsellView.form_valid st formCurrency formAmount formNonce locale today custRes subRes s

/-- `ThankYouView` defines no `dispatch` of its own, so the
`TransactionRequiredMixin` guard runs directly: redirect home when the
session has no completed transaction, render the template otherwise. -/
def ThankYouView.dispatch (s : Session) : Response :=
  match TransactionRequiredMixin.dispatch s with
  | some r => r
  | none => Response.rendered

/-! ## Newsletter signup (`NewsletterSignupView`) -/

/-- `NewsletterSignupView.form_valid`.  The cleaned form data is an
abstract key-value list.  The source copies it into `data`, adds
`source_url` and `lang` to `data` — and then enqueues `form.cleaned_data`,
not `data` (`views.py` line 564).  The first output component is the list
of payloads enqueued. -/
def NewsletterSignupView.form_valid (cleaned_data : List (String × String))
    (full_path : String) (language_code : String) (send_data_to_basket : Bool) :
    List (List (String × String)) × Response :=
  if send_data_to_basket then
    let data := cleaned_data ++ [("source_url", full_path), ("lang", language_code)]
    let enqueued := [cleaned_data]
    let _ := data
    (enqueued, Response.redirect completed_url)
  else
    ([], Response.redirect completed_url)

/-- The payload the claim (and the surrounding code) intends: the form
fields together with the derived source URL and the request locale. -/
def NewsletterSignupView.intended_payload (cleaned_data : List (String × String))
    (full_path : String) (language_code : String) : List (String × String) :=
  cleaned_data ++ [("source_url", full_path), ("lang", language_code)]

/-! ## Projections over flow outputs -/

/-- The session after a flow: the written session on a normal return, the
unmodified session when an exception escaped before any write. -/
def sessionAfter (s : Session) : Except PyErr (Session × Response × List GatewayCall) → Session
  | Except.ok out => out.1
  | Except.error _ => s

/-- The gateway calls a flow issued. -/
def callsOf : Except PyErr (Session × Response × List GatewayCall) → List GatewayCall
  | Except.ok out => out.2.2
  | Except.error _ => []

/-- The `subscription.create` payloads among a list of gateway calls. -/
def subscriptionRequests (cs : List GatewayCall) : List SubscriptionRequest :=
  cs.filterMap fun c =>
    match c with
    | GatewayCall.subscriptionCreate r => some r
    | _ => none

def isCustomerCreate : GatewayCall → Bool
  | GatewayCall.customerCreate _ => true
  | _ => false

/-! ## Concrete fixtures (used by witnesses and counterexamples) -/

def exSettings : Settings :=
  { merchant_accounts := fun c => "merchant-" ++ c,
    plans := fun c => "plan-" ++ c }

def exSuggest : String → Nat → Option Nat := fun _ _ => some 10

def exCardForm : CardFormData :=
  { first_name := "Jane", last_name := "Doe", email := "jane@example.com",
    braintree_nonce := "nonce-1", amount := 50, address_line_1 := "1 Main St",
    town := "Townsville", post_code := "ZZ1 1ZZ", country := "GB" }

def exPaypalForm : PaypalFormData :=
  { frequency := Frequency.single, currency := "usd", amount := 50,
    braintree_nonce := "nonce-2", source_page_id := 5 }

def exPM : PaymentMethodRecord := { token := "token-abc", last_4 := "4242" }

def exCustSuccess : CustomerResult :=
  { is_success := true, payment_methods := [exPM], deep_errors := [] }

def exCustFailure : CustomerResult :=
  { is_success := false, payment_methods := [exPM], deep_errors := [ErrorCode.other 1] }

def exSaleSuccess : TransactionResult :=
  { is_success := true, transaction_id := "txn-1", settlement_amount := 42,
    last_4 := "4242", deep_errors := [] }

def exSaleFailure : TransactionResult :=
  { is_success := false, transaction_id := "", settlement_amount := 0,
    last_4 := "", deep_errors := [ErrorCode.NumberIsInvalid] }

def exSubSuccess : SubscriptionResult :=
  { is_success := true, subscription_id := "sub-1", deep_errors := [] }

def exSubFailure : SubscriptionResult :=
  { is_success := false, subscription_id := "", deep_errors := [ErrorCode.other 2] }

/-- Session details as written by a successful card single payment. -/
def exDetailsCardSingle : TransactionDetails :=
  { form_fields := FormSnapshot.cardPayment exCardForm, amount := 50,
    transaction_id := "txn-1", settlement_amount := SettlementVal.scalar 42,
    last_4 := some "4242", payment_method := PaymentMethod.card,
    currency := "usd", payment_frequency := Frequency.single,
    payment_method_token := some "token-abc", source_page_id := some 5,
    locale := "en-US" }

/-- Session details as written by a successful PayPal single payment
(no payment-method token is stored). -/
def exDetailsPaypalSingle : TransactionDetails :=
  { form_fields := FormSnapshot.paypalNone, amount := 50,
    transaction_id := "txn-2", settlement_amount := SettlementVal.tuple1 42,
    last_4 := none, payment_method := PaymentMethod.paypal,
    currency := "usd", payment_frequency := Frequency.single,
    payment_method_token := none, source_page_id := some 5,
    locale := "en-US" }

def exSessionCard : Session :=
  { completed_transaction_details := some exDetailsCardSingle, source_page_id := some 5 }

def exSessionPaypal : Session :=
  { completed_transaction_details := some exDetailsPaypalSingle, source_page_id := some 5 }

def emptySession : Session :=
  { completed_transaction_details := none, source_page_id := none }

/-! ## Lemmas about error classification -/

lemma address_errors_map_eq_post_code {e : ErrorCode} {m : String}
    (h : address_errors_map e = some m) : m = post_code_msg := by
  cases e <;> simp [address_errors_map] at h <;> exact h.symm

lemma check_for_address_errors_of_mem (errs : List ErrorCode)
    (h : ∃ e ∈ errs, isAddressCode e = true) :
    CardPaymentView.check_for_address_errors errs = some [post_code_msg] := by
  induction errs with
  | nil => obtain ⟨e, he, _⟩ := h; exact absurd he (List.not_mem_nil e)
  | cons a rest ih =>
    obtain ⟨e, he, hadr⟩ := h
    by_cases ha : isAddressCode a = true
    · obtain ⟨m, hm⟩ := Option.isSome_iff_exists.mp (by simpa [isAddressCode] using ha)
      have := address_errors_map_eq_post_code hm
      subst this
      simp [CardPaymentView.check_for_address_errors, hm]
    · have ha' : address_errors_map a = none := by
        cases hcase : address_errors_map a with
        | none => rfl
        | some m => exact absurd (by simp [isAddressCode, hcase]) ha
      have hmem : e ∈ rest := by
        rcases List.mem_cons.mp he with h1 | h1
        · subst h1; exact absurd hadr ha
        · exact h1
      simp [CardPaymentView.check_for_address_errors, ha', ih ⟨e, hmem, hadr⟩]

lemma check_for_address_errors_of_none (errs : List ErrorCode)
    (h : ∀ e ∈ errs, address_errors_map e = none) :
    CardPaymentView.check_for_address_errors errs = none := by
  induction errs with
  | nil => rfl
  | cons a rest ih =>
    have ha := h a (List.mem_cons_self a rest)
    simp [CardPaymentView.check_for_address_errors, ha,
      ih fun e he => h e (List.mem_cons_of_mem a he)]

/-- Claim C2: whenever the gateway error list contains at least one
address-related code (postal code invalid characters, postal code too
long), card-flow classification yields an `AddressError` carrying the
address message, regardless of which other codes co-occur; no
card-specific or generic message is produced. -/
theorem C2_address_error_priority (errs : List ErrorCode)
    (h : ∃ e ∈ errs, isAddressCode e = true) :
    CardPaymentView.process_braintree_error_result errs =
      CardErrorOutcome.addressError [post_code_msg] := by
  cases errs with
  | nil => obtain ⟨e, he, _⟩ := h; exact absurd he (List.not_mem_nil e)
  | cons a rest =>
    have hchk := check_for_address_errors_of_mem (a :: rest) h
    simp [CardPaymentView.process_braintree_error_result, hchk]

theorem C2_witness :
    CardPaymentView.process_braintree_error_result
      [ErrorCode.NumberIsInvalid, ErrorCode.PostalCodeIsTooLong, ErrorCode.CvvIsInvalid] =
      CardErrorOutcome.addressError [post_code_msg] :=
  C2_address_error_priority _ ⟨ErrorCode.PostalCodeIsTooLong, by decide, by decide⟩

/-- Claim C7: a gateway error result whose codes include no address code
and no mapped card code — and likewise a result with no structured errors
at all — is classified as exactly one generic message. -/
theorem C7_generic_fallback (errs : List ErrorCode)
    (h : ∀ e ∈ errs, address_errors_map e = none ∧ client_errors_map e = none) :
    CardPaymentView.process_braintree_error_result errs =
      CardErrorOutcome.formErrors [default_error_message] := by
  cases errs with
  | nil => rfl
  | cons a rest =>
    have hchk := check_for_address_errors_of_none (a :: rest) fun e he => (h e he).1
    have hfil : CardPaymentView.filter_user_card_errors (a :: rest) = [] := by
      simp only [CardPaymentView.filter_user_card_errors]
      exact List.filterMap_eq_nil_iff.mpr fun e he => (h e he).2
    simp [CardPaymentView.process_braintree_error_result, hchk, hfil]

theorem C7_witness :
    CardPaymentView.process_braintree_error_result [ErrorCode.other 3, ErrorCode.other 8] =
      CardErrorOutcome.formErrors [default_error_message] :=
  C7_generic_fallback _ (by decide)

/-- Claim C8: with no address code present, each mapped card code yields
its fixed message, all matches are collected in the order of the error
list, and the spec's example — a result whose error code is
`NumberIsInvalid` — yields exactly the card-number message. -/
theorem C8_card_error_mapping :
    client_errors_map ErrorCode.CreditCardTypeIsNotAccepted = some card_type_msg ∧
    client_errors_map ErrorCode.CvvIsInvalid = some cvv_invalid_msg ∧
    client_errors_map ErrorCode.CvvVerificationFailed = some cvv_invalid_msg ∧
    client_errors_map ErrorCode.ExpirationDateIsInvalid = some expiration_msg ∧
    client_errors_map ErrorCode.NumberIsInvalid = some number_invalid_msg ∧
    (∀ errs : List ErrorCode, (∀ e ∈ errs, address_errors_map e = none) →
      CardPaymentView.filter_user_card_errors errs ≠ [] →
      CardPaymentView.process_braintree_error_result errs =
        CardErrorOutcome.formErrors (errs.filterMap client_errors_map)) ∧
    CardPaymentView.process_braintree_error_result [ErrorCode.NumberIsInvalid] =
      CardErrorOutcome.formErrors [number_invalid_msg] := by
  refine ⟨rfl, rfl, rfl, rfl, rfl, ?_, by decide⟩
  intro errs hadr hfil
  cases errs with
  | nil => exact absurd rfl hfil
  | cons a rest =>
    have hchk := check_for_address_errors_of_none (a :: rest) hadr
    have hne : ((a :: rest).filterMap client_errors_map).isEmpty = false := by
      simpa [CardPaymentView.filter_user_card_errors, List.isEmpty_iff] using hfil
    simp [CardPaymentView.process_braintree_error_result, hchk,
      CardPaymentView.filter_user_card_errors, hne]

theorem C8_witness :
    CardPaymentView.process_braintree_error_result
      [ErrorCode.CvvIsInvalid, ErrorCode.other 4, ErrorCode.ExpirationDateIsInvalid] =
      CardErrorOutcome.formErrors [cvv_invalid_msg, expiration_msg] := by
  have h := C8_card_error_mapping.2.2.2.2.2.1
    [ErrorCode.CvvIsInvalid, ErrorCode.other 4, ErrorCode.ExpirationDateIsInvalid]
    (by decide) (by decide)
  rw [h]; rfl

/-- Claim C1: in every payment flow (card single, card monthly, PayPal
single, PayPal monthly, card upsell, PayPal upsell) the session's
`completed_transaction_details` slot is written — by
`BraintreePaymentMixin.success`, from the flow's own details — exactly
when the terminal gateway call succeeded; on any gateway failure the
session is left unchanged and no record is created. -/
theorem C1_session_write_iff_terminal_success
    (st : Settings) (f : CardFormData) (pf : PaypalFormData)
    (currency : String) (spid : Nat) (locale : String)
    (custRes : CustomerResult) (saleRes : TransactionResult) (subRes : SubscriptionResult)
    (s : Session) (t : TransactionDetails)
    (uAmount : Nat) (uCurrency uNonce : String) (today : Date)
    (pm : PaymentMethodRecord) (pmRest : List PaymentMethodRecord)
    (hpm : custRes.payment_methods = pm :: pmRest)
    (hs : s.completed_transaction_details = some t) :
    (sessionAfter s
        (CardPaymentView.process_single_transaction st f currency spid locale custRes saleRes s) =
      if custRes.is_success && saleRes.is_success then
        (BraintreePaymentMixin.success
          (CardPaymentView.get_transaction_details_for_session f currency Frequency.single
            saleRes.transaction_id (SettlementVal.scalar saleRes.settlement_amount)
            (some saleRes.last_4) (some pm.token))
          (some spid) locale (CardPaymentView.get_success_url Frequency.single)).1
      else s) ∧
    (sessionAfter s
        (CardPaymentView.process_monthly_transaction st f currency spid locale custRes subRes s) =
      if custRes.is_success && subRes.is_success then
        (BraintreePaymentMixin.success
          (CardPaymentView.get_transaction_details_for_session f currency Frequency.monthly
            subRes.subscription_id SettlementVal.pyNone (some pm.last_4) none)
          (some spid) locale (CardPaymentView.get_success_url Frequency.monthly)).1
      else s) ∧
    (sessionAfter s
        (PaypalPaymentView.form_valid st { pf with frequency := Frequency.single } locale
          saleRes custRes subRes s) =
      if saleRes.is_success then
        (BraintreePaymentMixin.success
          (PaypalPaymentView.get_transaction_details_for_session Frequency.single
            pf.amount pf.currency saleRes subRes)
          (some pf.source_page_id) locale (PaypalPaymentView.get_success_url Frequency.single)).1
      else s) ∧
    (sessionAfter s
        (PaypalPaymentView.form_valid st { pf with frequency := Frequency.monthly } locale
          saleRes custRes subRes s) =
      if custRes.is_success && subRes.is_success then
        (BraintreePaymentMixin.success
          (PaypalPaymentView.get_transaction_details_for_session Frequency.monthly
            pf.amount pf.currency saleRes subRes)
          (some pf.source_page_id) locale (PaypalPaymentView.get_success_url Frequency.monthly)).1
      else s) ∧
    (sessionAfter s (CardUpsellView.form_valid st uAmount locale today subRes s) =
      if subRes.is_success then
        (BraintreePaymentMixin.success
          (CardUpsellView.get_transaction_details_for_session uAmount
            subRes.subscription_id t.currency)
          s.source_page_id locale newsletter_signup_url).1
      else s) ∧
    (sessionAfter s
        (PaypalUpsellView.form_valid st uCurrency uAmount uNonce locale today custRes subRes s) =
      if custRes.is_success && subRes.is_success then
        (BraintreePaymentMixin.success
          (PaypalUpsellView.get_transaction_details_for_session uCurrency uAmount uNonce
            subRes.subscription_id uCurrency)
          s.source_page_id locale newsletter_signup_url).1
      else s) := by
  refine ⟨?_, ?_, ?_, ?_, ?_, ?_⟩
  · unfold CardPaymentView.process_single_transaction
    rw [hpm]
    cases hc : custRes.is_success <;> cases h2 : saleRes.is_success <;>
      simp [sessionAfter, hc, h2]
  · unfold CardPaymentView.process_monthly_transaction
    rw [hpm]
    cases hc : custRes.is_success <;> cases h2 : subRes.is_success <;>
      simp [sessionAfter, hc, h2]
  · unfold PaypalPaymentView.form_valid
    cases h2 : saleRes.is_success <;> simp [sessionAfter, h2]
  · unfold PaypalPaymentView.form_valid
    rw [hpm]
    cases hc : custRes.is_success <;> cases h2 : subRes.is_success <;>
      simp [sessionAfter, hc, h2]
  · unfold CardUpsellView.form_valid
    rw [hs]
    cases h2 : subRes.is_success <;> simp [sessionAfter, h2]
  · unfold PaypalUpsellView.form_valid
    rw [hpm]
    cases hc : custRes.is_success <;> cases h2 : subRes.is_success <;>
      simp [sessionAfter, hc, h2]

/-- Witness for C1: a concrete card single attempt whose charge step fails
("card number invalid") leaves the session untouched, and the same attempt
with a successful charge writes the expected record. -/
theorem C1_witness :
    sessionAfter exSessionCard
        (CardPaymentView.process_single_transaction exSettings exCardForm "usd" 5 "en-US"
          exCustSuccess exSaleFailure exSessionCard) = exSessionCard ∧
    sessionAfter exSessionCard
        (CardPaymentView.process_single_transaction exSettings exCardForm "usd" 5 "en-US"
          exCustSuccess exSaleSuccess exSessionCard) =
      { completed_transaction_details := some exDetailsCardSingle, source_page_id := some 5 } := by
  constructor
  · have h := (C1_session_write_iff_terminal_success exSettings exCardForm exPaypalForm
      "usd" 5 "en-US" exCustSuccess exSaleFailure exSubFailure exSessionCard
      exDetailsCardSingle 10 "usd" "nonce-3" ⟨2020, 1, 31⟩ exPM [] rfl rfl).1
    simpa using h
  · have h := (C1_session_write_iff_terminal_success exSettings exCardForm exPaypalForm
      "usd" 5 "en-US" exCustSuccess exSaleSuccess exSubFailure exSessionCard
      exDetailsCardSingle 10 "usd" "nonce-3" ⟨2020, 1, 31⟩ exPM [] rfl rfl).1
    rw [h]
    decide

/-- Claim C3 is a code bug: the upsell views' own `dispatch` bodies read
`session['completed_transaction_details']` with a raw subscript *before*
`super().dispatch` reaches the `TransactionRequiredMixin` guard, so a
request with no completed-transaction record raises `KeyError` instead of
redirecting.  The thank-you view, which inherits the mixin's `dispatch`
unchanged, does redirect; and the mixin alone — the documented behavior —
redirects as well. -/
theorem C3_upsell_missing_record_raises :
    CardUpsellView.request exSuggest exSettings 10 "en-US" ⟨2020, 1, 31⟩
        exSubSuccess emptySession = Except.error PyErr.keyError ∧
    PaypalUpsellView.request exSuggest exSettings "usd" 10 "nonce-3" "en-US" ⟨2020, 1, 31⟩
        exCustSuccess exSubSuccess emptySession = Except.error PyErr.keyError ∧
    ThankYouView.dispatch emptySession = Response.redirect home_url ∧
    TransactionRequiredMixin.dispatch emptySession = some (Response.redirect home_url) :=
  ⟨rfl, rfl, rfl, rfl⟩

/-- Claim C4: an upsell request whose session record has a non-single
frequency, or a payment method other than the view's expected one, is
redirected away with no gateway call issued and the session unchanged. -/
theorem C4_ineligible_upsell_redirects
    (suggest : String → Nat → Option Nat) (st : Settings)
    (formAmount : Nat) (formCurrency formNonce locale : String) (today : Date)
    (custRes : CustomerResult) (subRes : SubscriptionResult)
    (s : Session) (t : TransactionDetails)
    (hs : s.completed_transaction_details = some t) :
    (t.payment_frequency ≠ Frequency.single ∨ t.payment_method ≠ PaymentMethod.card →
      CardUpsellView.request suggest st formAmount locale today subRes s =
        Except.ok (s, Response.redirect newsletter_signup_url, [])) ∧
    (t.payment_frequency ≠ Frequency.single ∨ t.payment_method ≠ PaymentMethod.paypal →
      PaypalUpsellView.request suggest st formCurrency formAmount formNonce locale today
          custRes subRes s =
        Except.ok (s, Response.redirect newsletter_signup_url, [])) := by
  constructor
  · intro h
    have hcond : ¬(t.payment_frequency = Frequency.single ∧
        t.payment_method = PaymentMethod.card) := by tauto
    simp [CardUpsellView.request, CardUpsellView.dispatch, hs, hcond]
  · intro h
    have hcond : ¬(t.payment_frequency = Frequency.single ∧
        t.payment_method = PaymentMethod.paypal) := by tauto
    simp [PaypalUpsellView.request, PaypalUpsellView.dispatch, hs, hcond]

/-- Witness for C4: the spec's own example — a card upsell requested after
a PayPal single payment — redirects away and performs no gateway call. -/
theorem C4_witness :
    CardUpsellView.request exSuggest exSettings 10 "en-US" ⟨2020, 1, 31⟩
        exSubSuccess exSessionPaypal =
      Except.ok (exSessionPaypal, Response.redirect newsletter_signup_url, []) :=
  (C4_ineligible_upsell_redirects exSuggest exSettings 10 "usd" "nonce-3" "en-US"
      ⟨2020, 1, 31⟩ exCustSuccess exSubSuccess exSessionPaypal exDetailsPaypalSingle rfl).1
    (Or.inr (by decide))

/-- Counterexample to claim C5 as stated: a concrete PayPal upsell
submission *does* create a new customer (and payment method) from the
nonce submitted with the upsell form, and the subscription is created
against that new payment method's token — not against a token stored in
the session (the PayPal single flow stores none). -/
theorem C5_counterexample_paypal_upsell_creates_customer :
    (callsOf (PaypalUpsellView.request exSuggest exSettings "usd" 10 "nonce-3" "en-US"
        ⟨2020, 1, 31⟩ exCustSuccess exSubSuccess exSessionPaypal)).any isCustomerCreate = true ∧
    (subscriptionRequests (callsOf (PaypalUpsellView.request exSuggest exSettings "usd" 10
        "nonce-3" "en-US" ⟨2020, 1, 31⟩ exCustSuccess exSubSuccess exSessionPaypal))).map
      SubscriptionRequest.payment_method_token = [some "token-abc"] ∧
    exDetailsPaypalSingle.payment_method_token = none :=
  ⟨rfl, rfl, rfl⟩

/-- Claim C5 as amended: the *card* upsell creates its subscription against
the payment-method token stored in the session and issues no
customer-create call; the *PayPal* upsell first creates a new customer
from the nonce submitted with the upsell form and subscribes against the
newly vaulted payment method's token. -/
theorem C5_amended_upsell_token_usage
    (st : Settings) (formAmount : Nat) (formCurrency formNonce locale : String)
    (today : Date) (custRes : CustomerResult) (subRes : SubscriptionResult)
    (s : Session) (t : TransactionDetails)
    (pm : PaymentMethodRecord) (pmRest : List PaymentMethodRecord)
    (hs : s.completed_transaction_details = some t)
    (hpm : custRes.payment_methods = pm :: pmRest)
    (hcust : custRes.is_success = true) :
    callsOf (CardUpsellView.form_valid st formAmount locale today subRes s) =
      [GatewayCall.subscriptionCreate
        { plan_id := BraintreePaymentMixin.get_plan_id st t.currency,
          merchant_account_id := BraintreePaymentMixin.get_merchant_account_id st t.currency,
          payment_method_token := t.payment_method_token,
          price := formAmount,
          first_billing_date := some (addOneMonth today) }] ∧
    (callsOf (CardUpsellView.form_valid st formAmount locale today subRes s)).any
      isCustomerCreate = false ∧
    callsOf (PaypalUpsellView.form_valid st formCurrency formAmount formNonce locale today
        custRes subRes s) =
      [GatewayCall.customerCreate
        { first_name := none, last_name := none, email := none,
          payment_method_nonce := formNonce },
       GatewayCall.subscriptionCreate
        { plan_id := BraintreePaymentMixin.get_plan_id st formCurrency,
          merchant_account_id := BraintreePaymentMixin.get_merchant_account_id st formCurrency,
          payment_method_token := some pm.token,
          price := formAmount,
          first_billing_date := some (addOneMonth today) }] := by
  have hcard : callsOf (CardUpsellView.form_valid st formAmount locale today subRes s) =
      [GatewayCall.subscriptionCreate
        { plan_id := BraintreePaymentMixin.get_plan_id st t.currency,
          merchant_account_id := BraintreePaymentMixin.get_merchant_account_id st t.currency,
          payment_method_token := t.payment_method_token,
          price := formAmount,
          first_billing_date := some (addOneMonth today) }] := by
    unfold CardUpsellView.form_valid
    rw [hs]
    cases h2 : subRes.is_success <;> simp [callsOf, h2]
  refine ⟨hcard, ?_, ?_⟩
  · rw [hcard]; rfl
  · unfold PaypalUpsellView.form_valid
    rw [hpm]
    cases h2 : subRes.is_success <;> simp [callsOf, hcust, h2]

/-- Witness for the amended C5, at a concrete card upsell and a concrete
PayPal upsell submission. -/
theorem C5_amended_witness :
    callsOf (CardUpsellView.form_valid exSettings 10 "en-US" ⟨2020, 1, 31⟩
        exSubSuccess exSessionCard) =
      [GatewayCall.subscriptionCreate
        { plan_id := "plan-usd", merchant_account_id := "merchant-usd",
          payment_method_token := some "token-abc", price := 10,
          first_billing_date := some ⟨2020, 2, 29⟩ }] := by
  have h := (C5_amended_upsell_token_usage exSettings 10 "usd" "nonce-3" "en-US"
    ⟨2020, 1, 31⟩ exCustSuccess exSubSuccess exSessionCard exDetailsCardSingle
    exPM [] rfl rfl rfl).1
  rw [h]
  rfl

/-- The spec's wording of C6: the target date lies in the immediately
following calendar month, with the same day of month unless that day does
not exist in the target month, in which case it is clamped to the target
month's last day. -/
def oneCalendarMonthAfter (d next : Date) : Prop :=
  next.year = (if d.month = 12 then d.year + 1 else d.year) ∧
  next.month = (if d.month = 12 then 1 else d.month + 1) ∧
  next.day = (if d.day ≤ daysInMonth next.year next.month then d.day
              else daysInMonth next.year next.month)

/-- Claim C6: both upsell flows pass `first_billing_date = today +
relativedelta(months=1)` to `subscription.create`; that date is exactly
one calendar month after the submission date with day-of-month overflow
clamped to the target month's last day (Jan 31 ↦ Feb 29 in a leap year,
Feb 28 otherwise). -/
theorem C6_first_billing_date_one_month
    (st : Settings) (formAmount : Nat) (formCurrency formNonce locale : String)
    (today : Date) (custRes : CustomerResult) (subRes : SubscriptionResult)
    (s : Session) (t : TransactionDetails)
    (pm : PaymentMethodRecord) (pmRest : List PaymentMethodRecord)
    (hs : s.completed_transaction_details = some t)
    (hpm : custRes.payment_methods = pm :: pmRest)
    (hcust : custRes.is_success = true) :
    (subscriptionRequests (callsOf
        (CardUpsellView.form_valid st formAmount locale today subRes s))).map
      SubscriptionRequest.first_billing_date = [some (addOneMonth today)] ∧
    (subscriptionRequests (callsOf
        (PaypalUpsellView.form_valid st formCurrency formAmount formNonce locale today
          custRes subRes s))).map
      SubscriptionRequest.first_billing_date = [some (addOneMonth today)] ∧
    (∀ d : Date, oneCalendarMonthAfter d (addOneMonth d)) ∧
    addOneMonth ⟨2020, 1, 31⟩ = ⟨2020, 2, 29⟩ ∧
    addOneMonth ⟨2021, 1, 31⟩ = ⟨2021, 2, 28⟩ ∧
    addOneMonth ⟨2021, 12, 15⟩ = ⟨2022, 1, 15⟩ := by
  refine ⟨?_, ?_, ?_, by decide, by decide, by decide⟩
  · unfold CardUpsellView.form_valid
    rw [hs]
    cases h2 : subRes.is_success <;> simp [callsOf, subscriptionRequests, h2]
  · unfold PaypalUpsellView.form_valid
    rw [hpm]
    cases h2 : subRes.is_success <;>
      simp [callsOf, subscriptionRequests, hcust, h2]
  · intro d
    refine ⟨rfl, rfl, ?_⟩
    simp only [addOneMonth]
    exact Nat.min_def

/-- Witness for C6: a concrete card upsell submitted on 2020-01-31 asks the
gateway for a first billing date of 2020-02-29. -/
theorem C6_witness :
    (subscriptionRequests (callsOf
        (CardUpsellView.form_valid exSettings 10 "en-US" ⟨2020, 1, 31⟩
          exSubSuccess exSessionCard))).map
      SubscriptionRequest.first_billing_date = [some ⟨2020, 2, 29⟩] := by
  have h := (C6_first_billing_date_one_month exSettings 10 "usd" "nonce-3" "en-US"
    ⟨2020, 1, 31⟩ exCustSuccess exSubSuccess exSessionCard exDetailsCardSingle
    exPM [] rfl rfl rfl).1
  rw [h]
  rfl

/-- Claim C9 is a code bug (acknowledged by the spec's design notes): on a
successful single transaction the card flow stores the gateway's
settlement amount as a scalar, while the PayPal flow — because of the
trailing comma at `views.py` line 336 — stores the one-element tuple
`(settlement_amount,)`; the two flows' representations differ. -/
theorem C9_settlement_amount_tuple_vs_scalar :
    (sessionAfter emptySession
        (CardPaymentView.process_single_transaction exSettings exCardForm "usd" 5 "en-US"
          exCustSuccess exSaleSuccess emptySession)).completed_transaction_details.map
      TransactionDetails.settlement_amount = some (SettlementVal.scalar 42) ∧
    (sessionAfter emptySession
        (PaypalPaymentView.form_valid exSettings exPaypalForm "en-US"
          exSaleSuccess exCustSuccess exSubSuccess emptySession)).completed_transaction_details.map
      TransactionDetails.settlement_amount = some (SettlementVal.tuple1 42) ∧
    SettlementVal.tuple1 42 ≠ SettlementVal.scalar 42 :=
  ⟨rfl, rfl, by decide⟩

/-- Claim C10 is a code bug: `NewsletterSignupView.form_valid` builds the
augmented payload `data` (form fields plus `source_url` and `lang`) but
then enqueues `form.cleaned_data`, so the payload actually queued lacks
the derived source URL and the locale. -/
theorem C10_newsletter_payload_missing_fields :
    (NewsletterSignupView.form_valid [("email", "jane@example.com")]
        "/en-US/?subscribed=0" "en-us" true).1 = [[("email", "jane@example.com")]] ∧
    NewsletterSignupView.intended_payload [("email", "jane@example.com")]
        "/en-US/?subscribed=0" "en-us" =
      [("email", "jane@example.com"), ("source_url", "/en-US/?subscribed=0"),
       ("lang", "en-us")] ∧
    (NewsletterSignupView.form_valid [("email", "jane@example.com")]
        "/en-US/?subscribed=0" "en-us" true).1 ≠
      [NewsletterSignupView.intended_payload [("email", "jane@example.com")]
        "/en-US/?subscribed=0" "en-us"] :=
  ⟨rfl, rfl, by decide⟩

end Donate
